import Mathlib

/-!
Verification of the `target_reacher` marker-acquisition state machine and
coordinate-frame resolution pipeline.

The repository ships the class header `target_reacher.h`: the constructor body
is inline there (parameter declarations and the initial `set_goal` call), while
the bodies of the five private methods are only declared.  The embedding below
translates the constructor from the header and models the five method bodies
from the specification, as noted on each definition.  Doubles are embedded as
exact rationals; a planar rigid transform carries the cosine/sine pair of its
rotation angle.
-/

/-- Error taxonomy of the spec (section 7). -/
inductive TRError
  | ConfigurationError
  | TransformUnavailable
  deriving DecidableEq, Repr

/-- The configuration surface declared by the constructor
(`target_reacher.h`, lines 27-38): the staging goal `aruco_target.{x,y}`,
the reference frame name `final_destination.frame_id`, and one offset pair
`final_destination.aruco_i.{x,y}` for each declared identity `i` in 0..3.
`angular_speed` is the fixed configured angular velocity of the rotation
command (spec section 4.4). -/
structure Config where
  aruco_target_x : ℚ
  aruco_target_y : ℚ
  frame_id : String
  aruco_0_x : ℚ
  aruco_0_y : ℚ
  aruco_1_x : ℚ
  aruco_1_y : ℚ
  aruco_2_x : ℚ
  aruco_2_y : ℚ
  aruco_3_x : ℚ
  aruco_3_y : ℚ
  angular_speed : ℚ
  deriving DecidableEq

/-- A planar rigid transform: translation `(x, y)` and a rotation whose
cosine and sine are `c` and `s`.  This is the exact-arithmetic embedding of a
2D pose / transform of the frame graph. -/
structure Pose2 where
  x : ℚ
  y : ℚ
  c : ℚ
  s : ℚ
  deriving DecidableEq

/-- Composition of rigid transforms: the pose of the grandchild frame in the
grandparent frame, when `p` is the child-in-parent pose and `q` the
grandchild-in-child pose. -/
def Pose2.compose (p q : Pose2) : Pose2 :=
  { x := p.x + p.c * q.x - p.s * q.y
    y := p.y + p.s * q.x + p.c * q.y
    c := p.c * q.c - p.s * q.s
    s := p.s * q.c + p.c * q.s }

/-- A `geometry_msgs::msg::Twist` velocity command. -/
structure Twist where
  linear_x : ℚ
  linear_y : ℚ
  linear_z : ℚ
  angular_x : ℚ
  angular_y : ℚ
  angular_z : ℚ
  deriving DecidableEq

/-- The rotation command: zero linear velocity, fixed configured angular
velocity about z (spec section 4.4). -/
def rotation_twist (w : ℚ) : Twist :=
  { linear_x := 0, linear_y := 0, linear_z := 0
    angular_x := 0, angular_y := 0, angular_z := w }

/-- A static transform publication: child frame `child` of parent frame
`parent`, with translation `(tx, ty, tz)` and planar rotation `(rc, rs)`
(cosine, sine); the identity rotation is `(1, 0)`. -/
structure FramePublication where
  parent : String
  child : String
  tx : ℚ
  ty : ℚ
  tz : ℚ
  rc : ℚ
  rs : ℚ
  deriving DecidableEq

/-- Everything the node emits to its collaborators: `set_goal` calls to the
bot controller, `cmd_vel` messages to `/robot1/cmd_vel`, static frame
broadcasts, and surfaced fatal errors. -/
inductive Output
  | set_goal (x y : ℚ)
  | cmd_vel (t : Twist)
  | publish_frame (p : FramePublication)
  | error_report (e : TRError)
  deriving DecidableEq

def Output.isSetGoal : Output → Bool
  | .set_goal _ _ => true
  | _ => false

def Output.isCmdVel : Output → Bool
  | .cmd_vel _ => true
  | _ => false

def Output.isPublishFrame : Output → Bool
  | .publish_frame _ => true
  | _ => false

/-- The node's mutable state: the aruco detector flag
(`target_reacher.h`, line 115), initially `false`. -/
structure State where
  m_is_aruco_marker_detected : Bool
  deriving DecidableEq

/-- The external coordinate-frame-graph service, as consumed by the core:
`avail t` is the pose of the reference frame in the navigation (odom) frame
as resolvable by the graph at retry attempt `t` (`none` when the transform
is not yet resolvable), and `retry_budget` is the number of attempts allowed
by the configured timeout. -/
structure TfEnv where
  avail : ℕ → Option Pose2
  retry_budget : ℕ

/-- Modelled from the spec: the bounded-backoff retry loop of the Goal
Resolver (spec section 4.3 failure semantics) — the method body is absent
from the repository sources.  Attempts are made at times `t, t+1, ...` until
the transform resolves or the budget runs out. -/
def lookupWithRetry (avail : ℕ → Option Pose2) : ℕ → ℕ → Option Pose2
  | _, 0 => none
  | t, fuel + 1 =>
    match avail t with
    | some p => some p
    | none => lookupWithRetry avail (t + 1) fuel

/-- Modelled from the spec: `get_final_destination_from_parameters`
(declared at `target_reacher.h` line 142, body absent from the sources).
For a declared identity in `{0,1,2,3}` it returns the configured offset pair
(the constructor declares exactly these four entries, lines 31-38); for any
other identity the lookup fails with `ConfigurationError`. -/
def get_final_destination_from_parameters (cfg : Config) (marker_id : ℤ) :
    Except TRError (ℚ × ℚ) :=
  if marker_id = 0 then .ok (cfg.aruco_0_x, cfg.aruco_0_y)
  else if marker_id = 1 then .ok (cfg.aruco_1_x, cfg.aruco_1_y)
  else if marker_id = 2 then .ok (cfg.aruco_2_x, cfg.aruco_2_y)
  else if marker_id = 3 then .ok (cfg.aruco_3_x, cfg.aruco_3_y)
  else .error .ConfigurationError

/-- Modelled from the spec: `broadcast_frame_final_destination`
(declared at `target_reacher.h` line 151, body absent from the sources).
Creates the frame `final_destination` as a static child of `given_frame`
with translation `(retrived_x, retrived_y, 0)` and identity rotation. -/
def broadcast_frame_final_destination (given_frame : String)
    (retrived_x retrived_y : ℚ) : FramePublication :=
  { parent := given_frame, child := "final_destination"
    tx := retrived_x, ty := retrived_y, tz := 0, rc := 1, rs := 0 }

/-- Modelled from the spec: `compute_goal_in_odom_frame`
(declared at `target_reacher.h` line 159, body absent from the sources).
Queries the frame graph, with retries up to the budget, for the reference
frame's pose in the odom frame and composes it with the derived frame's
offset `(ox, oy)` (identity rotation); the goal is the translation of the
composed odom-to-final_destination transform.  If the transform never
resolves within the budget, fails with `TransformUnavailable`. -/
def compute_goal_in_odom_frame (env : TfEnv) (ox oy : ℚ) :
    Except TRError (ℚ × ℚ) :=
  match lookupWithRetry env.avail 0 env.retry_budget with
  | none => .error .TransformUnavailable
  | some ref =>
    let g := ref.compose { x := ox, y := oy, c := 1, s := 0 }
    .ok (g.x, g.y)

/-- Modelled from the spec: the Goal Resolver (spec section 4.3) invoked by
`aruco_markers_callback` on the first detection.  Looks up the offset
(propagating `ConfigurationError` with no frame published and no goal set),
publishes the derived frame, queries the composed transform, and on success
hands the goal to the bot controller. -/
def resolve (cfg : Config) (env : TfEnv) (marker_id : ℤ) : List Output :=
  match get_final_destination_from_parameters cfg marker_id with
  | .error e => [.error_report e]
  | .ok (x, y) =>
    let pub := broadcast_frame_final_destination cfg.frame_id x y
    match compute_goal_in_odom_frame env pub.tx pub.ty with
    | .error e => [.publish_frame pub, .error_report e]
    | .ok (gx, gy) => [.publish_frame pub, .set_goal gx gy]

/-- Modelled from the spec and the header documentation
(`target_reacher.h`, lines 118-125): the `/goal_reached` callback publishes
the angular velocity on `/robot1/cmd_vel` iff the message data is `true`
and the aruco detector flag is not true.  A malformed payload (`none`) is
dropped. -/
def goal_reached_callback (cfg : Config) (s : State)
    (goal_reached : Option Bool) : State × List Output :=
  match goal_reached with
  | none => (s, [])
  | some data =>
    if data && !s.m_is_aruco_marker_detected then
      (s, [.cmd_vel (rotation_twist cfg.angular_speed)])
    else
      (s, [])

/-- Modelled from the spec and the header documentation
(`target_reacher.h`, lines 127-133): the `/aruco_markers` callback.  A
message carrying no marker identities is malformed and dropped; once the
detector flag is set every further message is a no-op; otherwise the flag
is set and the Goal Resolver runs on the observed identity. -/
def aruco_markers_callback (cfg : Config) (env : TfEnv) (s : State)
    (marker_ids : List ℤ) : State × List Output :=
  match marker_ids with
  | [] => (s, [])
  | mid :: _ =>
    if s.m_is_aruco_marker_detected then
      (s, [])
    else
      ({ m_is_aruco_marker_detected := true }, resolve cfg env mid)

/-- An asynchronous input event: an arrival report on `/goal_reached`
(`none` = malformed payload) or a marker observation on `/aruco_markers`
(`[]` = message carrying no identities). -/
inductive Event
  | arrival (data : Option Bool)
  | markers (ids : List ℤ)
  deriving DecidableEq

/-- Dispatch of one event to its callback. -/
def step (cfg : Config) (env : TfEnv) (s : State) : Event → State × List Output
  | .arrival d => goal_reached_callback cfg s d
  | .markers ids => aruco_markers_callback cfg env s ids

/-- The constructor `TargetReacher::TargetReacher`
(`target_reacher.h`, lines 22-66): declares the parameters, sets the initial
staging goal `set_goal(aruco_target_x, aruco_target_y)` once (line 41), and
leaves the detector flag at its declared starting value `false` (line 115). -/
def construct (cfg : Config) : State × List Output :=
  ({ m_is_aruco_marker_detected := false },
   [.set_goal cfg.aruco_target_x cfg.aruco_target_y])

/-- Process a list of events from a state, accumulating outputs in order. -/
def runFrom (cfg : Config) (env : TfEnv) (s : State) :
    List Event → State × List Output
  | [] => (s, [])
  | e :: es =>
    let r1 := step cfg env s e
    let r2 := runFrom cfg env r1.1 es
    (r2.1, r1.2 ++ r2.2)

/-- A whole run: construction followed by event processing. -/
def run (cfg : Config) (env : TfEnv) (es : List Event) : State × List Output :=
  let r0 := construct cfg
  let r1 := runFrom cfg env r0.1 es
  (r1.1, r0.2 ++ r1.2)

/-- Number of steps of a trace at which the detector flag changes value. -/
def flipCount (cfg : Config) (env : TfEnv) (s : State) : List Event → ℕ
  | [] => 0
  | e :: es =>
    let s1 := (step cfg env s e).1
    (if s.m_is_aruco_marker_detected = s1.m_is_aruco_marker_detected
     then 0 else 1) + flipCount cfg env s1 es

/-- Number of derived-frame publications among a list of outputs. -/
def pubCount (outs : List Output) : ℕ :=
  (outs.filter Output.isPublishFrame).length

theorem pubCount_append (a b : List Output) :
    pubCount (a ++ b) = pubCount a + pubCount b := by
  simp [pubCount, List.filter_append]

/-- Once the detector flag is set, every event is a no-op. -/
theorem step_latched (cfg : Config) (env : TfEnv) (s : State)
    (h : s.m_is_aruco_marker_detected = true) (e : Event) :
    step cfg env s e = (s, []) := by
  cases e with
  | arrival d =>
    cases d with
    | none => rfl
    | some data => simp [step, goal_reached_callback, h]
  | markers ids =>
    cases ids with
    | nil => rfl
    | cons mid rest => simp [step, aruco_markers_callback, h]

/-- Once the detector flag is set, a whole event sequence is a no-op. -/
theorem runFrom_latched (cfg : Config) (env : TfEnv) (s : State)
    (h : s.m_is_aruco_marker_detected = true) :
    ∀ es : List Event, runFrom cfg env s es = (s, []) := by
  intro es
  induction es with
  | nil => rfl
  | cons e es ih => simp [runFrom, step_latched cfg env s h, ih]

theorem flipCount_latched (cfg : Config) (env : TfEnv) (s : State)
    (h : s.m_is_aruco_marker_detected = true) :
    ∀ es : List Event, flipCount cfg env s es = 0 := by
  intro es
  induction es with
  | nil => rfl
  | cons e es ih => simp [flipCount, step_latched cfg env s h, ih]

theorem flipCount_le_one (cfg : Config) (env : TfEnv) :
    ∀ (es : List Event) (s : State), flipCount cfg env s es ≤ 1 := by
  intro es
  induction es with
  | nil => intro s; simp [flipCount]
  | cons e es ih =>
    intro s
    simp only [flipCount]
    by_cases hflip :
        s.m_is_aruco_marker_detected =
          (step cfg env s e).1.m_is_aruco_marker_detected
    · simpa [hflip] using ih (step cfg env s e).1
    · have h1 : (step cfg env s e).1.m_is_aruco_marker_detected = true := by
        cases hb : (step cfg env s e).1.m_is_aruco_marker_detected
        · cases hs : s.m_is_aruco_marker_detected
          · exact absurd (hs.trans hb.symm) hflip
          · have := step_latched cfg env s hs e
            exact absurd (by rw [this]) hflip
        · rfl
      rw [flipCount_latched cfg env _ h1 es]
      simp [hflip]

/-- Concrete configuration used by the witnesses: staging goal `(2, 3)`,
reference frame `"frame"`, offsets matching the spec scenario
(`aruco_1` at `(1/2, -1)`). -/
def cfgEx : Config :=
  { aruco_target_x := 2, aruco_target_y := 3, frame_id := "frame"
    aruco_0_x := 0, aruco_0_y := 0
    aruco_1_x := 1/2, aruco_1_y := -1
    aruco_2_x := 6, aruco_2_y := 7
    aruco_3_x := 8, aruco_3_y := 9
    angular_speed := 1/5 }

/-- Concrete frame-graph environment for the witnesses: the reference frame
is at navigation pose `(2, 3, 0)` and resolvable at every attempt. -/
def envEx : TfEnv :=
  { avail := fun _ => some { x := 2, y := 3, c := 1, s := 0 }, retry_budget := 3 }

/-- Frame-graph environment in which the transform never resolves. -/
def envNone : TfEnv := { avail := fun _ => none, retry_budget := 2 }

/-- Claim C1: for every sequence of marker-observation events, only the first
observation flips the detector latch (initially false) to true and triggers
goal resolution; every later marker observation is a no-op, so the latch
flips at most once per run. -/
theorem C1_latch_flips_once (cfg : Config) (env : TfEnv) :
    (∀ (s : State) (mid : ℤ) (rest : List ℤ),
      s.m_is_aruco_marker_detected = false →
      aruco_markers_callback cfg env s (mid :: rest) =
        ({ m_is_aruco_marker_detected := true }, resolve cfg env mid)) ∧
    (∀ (s : State) (ids : List ℤ), s.m_is_aruco_marker_detected = true →
      aruco_markers_callback cfg env s ids = (s, [])) ∧
    ∀ es : List Event, flipCount cfg env (construct cfg).1 es ≤ 1 := by
  refine ⟨?_, ?_, ?_⟩
  · intro s mid rest hs
    simp [aruco_markers_callback, hs]
  · intro s ids hs
    cases ids with
    | nil => rfl
    | cons mid rest => simp [aruco_markers_callback, hs]
  · intro es
    exact flipCount_le_one cfg env es (construct cfg).1

/-- Witness for Claim C1 at a concrete configuration: the first observation of
marker 1 flips the latch and invokes the resolver; from the latched state the
same observation is a no-op. -/
theorem C1_witness :
    aruco_markers_callback cfgEx envEx ⟨false⟩ [1] =
      (⟨true⟩, resolve cfgEx envEx 1) ∧
    aruco_markers_callback cfgEx envEx ⟨true⟩ [1] = (⟨true⟩, []) :=
  ⟨(C1_latch_flips_once cfgEx envEx).1 ⟨false⟩ 1 [] rfl,
   (C1_latch_flips_once cfgEx envEx).2.1 ⟨true⟩ [1] rfl⟩

/-- Claim C9: a malformed arrival report (missing payload) or a marker message
carrying no identities is dropped: the state, in particular the detector
latch, is unchanged and no output is produced. -/
theorem C9_malformed_events_dropped (cfg : Config) (env : TfEnv) (s : State) :
    step cfg env s (Event.arrival none) = (s, []) ∧
    step cfg env s (Event.markers []) = (s, []) :=
  ⟨rfl, rfl⟩

/-- Claim C10: the constructor issues exactly one `set_goal` call, with the
configured staging coordinates `(aruco_target.x, aruco_target.y)`, the
detector flag starts false, and in every run that call is the first output,
before any event is processed. -/
theorem C10_staging_goal_set_first (cfg : Config) :
    (construct cfg).2 =
      [Output.set_goal cfg.aruco_target_x cfg.aruco_target_y] ∧
    (construct cfg).1.m_is_aruco_marker_detected = false ∧
    ∀ (env : TfEnv) (es : List Event),
      (run cfg env es).2.head? =
        some (Output.set_goal cfg.aruco_target_x cfg.aruco_target_y) := by
  refine ⟨rfl, rfl, ?_⟩
  intro env es
  simp [run, construct]

/-- Claim C3: once the detector latch is true, no rotation command is ever
emitted again, whatever events (in particular arrival reports) follow. -/
theorem C3_no_rotation_after_latch (cfg : Config) (env : TfEnv) (s : State)
    (h : s.m_is_aruco_marker_detected = true) (es : List Event) (t : Twist) :
    Output.cmd_vel t ∉ (runFrom cfg env s es).2 := by
  rw [runFrom_latched cfg env s h es]
  simp

/-- Witness for Claim C3: from a latched state, an arrival report with
`reached = true` produces no rotation command. -/
theorem C3_witness :
    Output.cmd_vel (rotation_twist cfgEx.angular_speed) ∉
      (runFrom cfgEx envEx ⟨true⟩ [Event.arrival (some true)]).2 :=
  C3_no_rotation_after_latch cfgEx envEx ⟨true⟩ rfl
    [Event.arrival (some true)] (rotation_twist cfgEx.angular_speed)

/-- Claim C4: the offset-table lookup returns exactly the configured offsets
for each identity in the declared set 0..3 and fails with
`ConfigurationError` for every identity outside it. -/
theorem C4_offset_table_lookup (cfg : Config) :
    get_final_destination_from_parameters cfg 0 =
      .ok (cfg.aruco_0_x, cfg.aruco_0_y) ∧
    get_final_destination_from_parameters cfg 1 =
      .ok (cfg.aruco_1_x, cfg.aruco_1_y) ∧
    get_final_destination_from_parameters cfg 2 =
      .ok (cfg.aruco_2_x, cfg.aruco_2_y) ∧
    get_final_destination_from_parameters cfg 3 =
      .ok (cfg.aruco_3_x, cfg.aruco_3_y) ∧
    ∀ mid : ℤ, mid ≠ 0 → mid ≠ 1 → mid ≠ 2 → mid ≠ 3 →
      get_final_destination_from_parameters cfg mid =
        .error .ConfigurationError := by
  refine ⟨rfl, rfl, rfl, rfl, ?_⟩
  intro mid h0 h1 h2 h3
  simp [get_final_destination_from_parameters, h0, h1, h2, h3]

/-- Witness for Claim C4: identity 9 is outside the declared set and the
lookup fails with `ConfigurationError`. -/
theorem C4_witness :
    get_final_destination_from_parameters cfgEx 9 =
      .error .ConfigurationError :=
  (C4_offset_table_lookup cfgEx).2.2.2.2 9
    (by decide) (by decide) (by decide) (by decide)

/-- Claim C2: an arrival report with `reached = true` processed while the
detector latch is false emits exactly one rotation command — zero linear
velocity, the fixed configured angular velocity — and sets no goal; over any
sequence of such events before a detection, exactly one command per event is
emitted and none of them is a `set_goal`. -/
theorem C2_rotation_per_arrival (cfg : Config) (env : TfEnv) :
    (∀ s : State, s.m_is_aruco_marker_detected = false →
      goal_reached_callback cfg s (some true) =
        (s, [Output.cmd_vel (rotation_twist cfg.angular_speed)]) ∧
      (rotation_twist cfg.angular_speed).linear_x = 0 ∧
      (rotation_twist cfg.angular_speed).linear_y = 0 ∧
      (rotation_twist cfg.angular_speed).linear_z = 0 ∧
      (rotation_twist cfg.angular_speed).angular_z = cfg.angular_speed ∧
      ∀ x y : ℚ,
        Output.set_goal x y ∉ (goal_reached_callback cfg s (some true)).2) ∧
    ∀ es : List Event, (∀ e ∈ es, e = Event.arrival (some true)) →
      (runFrom cfg env (construct cfg).1 es).2 =
        List.replicate es.length
          (Output.cmd_vel (rotation_twist cfg.angular_speed)) := by
  constructor
  · intro s hs
    refine ⟨?_, rfl, rfl, rfl, rfl, ?_⟩
    · simp [goal_reached_callback, hs]
    · intro x y
      simp [goal_reached_callback, hs]
  · intro es
    induction es with
    | nil => intro _; rfl
    | cons e es ih =>
      intro h
      have he : e = Event.arrival (some true) := h e (List.mem_cons_self e es)
      subst he
      have hrest : ∀ e ∈ es, e = Event.arrival (some true) :=
        fun e hmem => h e (List.mem_cons_of_mem _ hmem)
      simp only [runFrom, step, List.length_cons, List.replicate_succ]
      have hstate :
          goal_reached_callback cfg (construct cfg).1 (some true) =
            ((construct cfg).1,
             [Output.cmd_vel (rotation_twist cfg.angular_speed)]) := by
        simp [goal_reached_callback, construct]
      rw [hstate]
      simp [ih hrest]

/-- Witness for Claim C2: with the latch down, one arrival report yields the
single rotation command; two consecutive reports yield exactly two. -/
theorem C2_witness :
    goal_reached_callback cfgEx ⟨false⟩ (some true) =
      (⟨false⟩, [Output.cmd_vel (rotation_twist cfgEx.angular_speed)]) ∧
    (runFrom cfgEx envEx (construct cfgEx).1
        [Event.arrival (some true), Event.arrival (some true)]).2 =
      List.replicate 2 (Output.cmd_vel (rotation_twist cfgEx.angular_speed)) :=
  ⟨((C2_rotation_per_arrival cfgEx envEx).1 ⟨false⟩ rfl).1,
   (C2_rotation_per_arrival cfgEx envEx).2
     [Event.arrival (some true), Event.arrival (some true)] (by decide)⟩

/-- The composition claimed by the spec, written from its words: the
reference pose `(rx, ry)` plus the offset `(ox, oy)` rotated by the reference
frame's angle θ, whose cosine and sine are `c` and `s`. -/
def spec_resolved_goal (rx ry c s ox oy : ℚ) : ℚ × ℚ :=
  (rx + (c * ox - s * oy), ry + (s * ox + c * oy))

/-- Claim C5: when the frame graph resolves the reference frame at pose
`(rx, ry, θ)`, the goal computed for offset `(ox, oy)` equals the reference
pose composed with the offset rotated by θ; in particular for θ = 0 it is
`(rx + ox, ry + oy)`. -/
theorem C5_goal_is_composed_offset (env : TfEnv) (ref : Pose2) (ox oy : ℚ)
    (h : lookupWithRetry env.avail 0 env.retry_budget = some ref) :
    compute_goal_in_odom_frame env ox oy =
      .ok (spec_resolved_goal ref.x ref.y ref.c ref.s ox oy) ∧
    (ref.c = 1 → ref.s = 0 →
      compute_goal_in_odom_frame env ox oy = .ok (ref.x + ox, ref.y + oy)) := by
  have hmain :
      compute_goal_in_odom_frame env ox oy =
        .ok (spec_resolved_goal ref.x ref.y ref.c ref.s ox oy) := by
    simp only [compute_goal_in_odom_frame, h, Pose2.compose,
      spec_resolved_goal]
    refine congrArg Except.ok (Prod.ext ?_ ?_) <;> ring
  refine ⟨hmain, ?_⟩
  intro hc hs
  rw [hmain]
  simp [spec_resolved_goal, hc, hs]

/-- Witness for Claim C5 at the spec's concrete scenario: reference frame at
`(2, 3, 0)`, offset `(1/2, -1)`, resolved goal `(5/2, 2)`. -/
theorem C5_witness :
    compute_goal_in_odom_frame envEx (1/2) (-1) =
      .ok (spec_resolved_goal 2 3 1 0 (1/2) (-1)) ∧
    compute_goal_in_odom_frame envEx (1/2) (-1) = .ok (2 + 1/2, 3 + -1) :=
  ⟨(C5_goal_is_composed_offset envEx { x := 2, y := 3, c := 1, s := 0 }
      (1/2) (-1) rfl).1,
   (C5_goal_is_composed_offset envEx { x := 2, y := 3, c := 1, s := 0 }
      (1/2) (-1) rfl).2 rfl rfl⟩

/-- Claim C7: a first marker observation whose identity has no declared
offset entry makes resolution fail with `ConfigurationError`: the only
output is the surfaced error — no frame is published and no goal is set. -/
theorem C7_undeclared_identity_fails (cfg : Config) (env : TfEnv) (s : State)
    (mid : ℤ) (rest : List ℤ)
    (hs : s.m_is_aruco_marker_detected = false)
    (h0 : mid ≠ 0) (h1 : mid ≠ 1) (h2 : mid ≠ 2) (h3 : mid ≠ 3) :
    (aruco_markers_callback cfg env s (mid :: rest)).2 =
      [Output.error_report .ConfigurationError] ∧
    (∀ p : FramePublication,
      Output.publish_frame p ∉ (aruco_markers_callback cfg env s (mid :: rest)).2) ∧
    ∀ x y : ℚ,
      Output.set_goal x y ∉ (aruco_markers_callback cfg env s (mid :: rest)).2 := by
  have hres : resolve cfg env mid = [.error_report .ConfigurationError] := by
    simp [resolve, get_final_destination_from_parameters, h0, h1, h2, h3]
  have hout :
      (aruco_markers_callback cfg env s (mid :: rest)).2 =
        [Output.error_report .ConfigurationError] := by
    simp [aruco_markers_callback, hs, hres]
  refine ⟨hout, ?_, ?_⟩
  · intro p
    rw [hout]
    simp
  · intro x y
    rw [hout]
    simp

/-- Witness for Claim C7: observing undeclared identity 9 yields only the
`ConfigurationError` report. -/
theorem C7_witness :
    (aruco_markers_callback cfgEx envEx ⟨false⟩ [9]).2 =
      [Output.error_report .ConfigurationError] :=
  (C7_undeclared_identity_fails cfgEx envEx ⟨false⟩ 9 [] rfl
    (by decide) (by decide) (by decide) (by decide)).1

theorem lookupWithRetry_none_of_unavailable (avail : ℕ → Option Pose2) :
    ∀ (fuel start : ℕ), (∀ i, i < fuel → avail (start + i) = none) →
      lookupWithRetry avail start fuel = none := by
  intro fuel
  induction fuel with
  | zero => intro start _; rfl
  | succ n ih =>
    intro start h
    have h0 : avail start = none := by simpa using h 0 (Nat.succ_pos n)
    simp only [lookupWithRetry, h0]
    exact ih (start + 1) (fun i hi => by
      rw [show start + 1 + i = start + (i + 1) from by omega]
      exact h (i + 1) (by omega))

/-- Claim C8: when the frame graph does not resolve the transform at any
retry attempt within the configured budget, the goal computation fails with
`TransformUnavailable`, and the resolver never sets a goal — the goal is not
silently defaulted. -/
theorem C8_transform_timeout_no_goal (cfg : Config) (env : TfEnv)
    (h : ∀ t, t < env.retry_budget → env.avail t = none) :
    (∀ ox oy : ℚ,
      compute_goal_in_odom_frame env ox oy = .error .TransformUnavailable) ∧
    ∀ (mid : ℤ) (x y : ℚ), Output.set_goal x y ∉ resolve cfg env mid := by
  have hl : lookupWithRetry env.avail 0 env.retry_budget = none :=
    lookupWithRetry_none_of_unavailable env.avail env.retry_budget 0
      (fun i hi => by simpa using h i hi)
  constructor
  · intro ox oy
    simp [compute_goal_in_odom_frame, hl]
  · intro mid x y
    unfold resolve
    cases hg : get_final_destination_from_parameters cfg mid with
    | error e => simp
    | ok q =>
      cases q with
      | mk qx qy => simp [compute_goal_in_odom_frame, hl]

/-- Witness for Claim C8: in an environment whose transform never resolves,
the computation fails with `TransformUnavailable` and the resolver output for
marker 1 contains no `set_goal` call. -/
theorem C8_witness :
    compute_goal_in_odom_frame envNone (1/2) (-1) =
      .error .TransformUnavailable ∧
    Output.set_goal (5/2) 2 ∉ resolve cfgEx envNone 1 :=
  ⟨(C8_transform_timeout_no_goal cfgEx envNone (fun _ _ => rfl)).1 (1/2) (-1),
   (C8_transform_timeout_no_goal cfgEx envNone (fun _ _ => rfl)).2 1 (5/2) 2⟩

theorem runFrom_nil (cfg : Config) (env : TfEnv) (s : State) :
    runFrom cfg env s [] = (s, []) := rfl

theorem runFrom_cons (cfg : Config) (env : TfEnv) (s : State) (e : Event)
    (es : List Event) :
    runFrom cfg env s (e :: es) =
      ((runFrom cfg env (step cfg env s e).1 es).1,
       (step cfg env s e).2 ++ (runFrom cfg env (step cfg env s e).1 es).2) :=
  rfl

/-- The resolver publishes the derived frame at most once per invocation. -/
theorem resolve_pubCount (cfg : Config) (env : TfEnv) (mid : ℤ) :
    pubCount (resolve cfg env mid) ≤ 1 := by
  unfold resolve
  split
  · simp [pubCount, Output.isPublishFrame]
  · dsimp only
    split
    · simp [pubCount, Output.isPublishFrame]
    · simp [pubCount, Output.isPublishFrame]

/-- Any frame the resolver publishes is the broadcast of a successfully
looked-up offset pair. -/
theorem publish_mem_resolve (cfg : Config) (env : TfEnv) (mid : ℤ)
    (p : FramePublication)
    (h : Output.publish_frame p ∈ resolve cfg env mid) :
    get_final_destination_from_parameters cfg mid = .ok (p.tx, p.ty) ∧
    p = broadcast_frame_final_destination cfg.frame_id p.tx p.ty := by
  unfold resolve at h
  split at h
  · simp at h
  · rename_i x y heq
    dsimp only at h
    split at h <;>
    · simp at h
      subst h
      exact ⟨heq, rfl⟩

theorem arrival_no_publish (cfg : Config) (s : State) (d : Option Bool) :
    pubCount (goal_reached_callback cfg s d).2 = 0 ∧
    (goal_reached_callback cfg s d).1 = s := by
  cases d with
  | none => exact ⟨rfl, rfl⟩
  | some data =>
    unfold goal_reached_callback
    by_cases hc : (data && !s.m_is_aruco_marker_detected) = true
    · simp [hc, pubCount, Output.isPublishFrame]
    · simp [hc, pubCount]

theorem runFrom_pubCount_le_one (cfg : Config) (env : TfEnv) :
    ∀ (es : List Event) (s : State), pubCount (runFrom cfg env s es).2 ≤ 1 := by
  intro es
  induction es with
  | nil => intro s; simp [runFrom, pubCount]
  | cons e es ih =>
    intro s
    rw [runFrom_cons]
    simp only [pubCount_append]
    cases e with
    | arrival d =>
      have h := arrival_no_publish cfg s d
      simp only [step]
      rw [h.1, h.2]
      simpa using ih s
    | markers ids =>
      cases ids with
      | nil =>
        simp only [step, aruco_markers_callback]
        simpa [pubCount] using ih s
      | cons mid rest =>
        by_cases hs : s.m_is_aruco_marker_detected = true
        · rw [step_latched cfg env s hs]
          simpa [pubCount] using ih s
        · have hs' : s.m_is_aruco_marker_detected = false :=
            Bool.not_eq_true _ ▸ Bool.of_not_eq_true hs
          simp only [step, aruco_markers_callback, hs', Bool.false_eq_true,
            if_false]
          rw [runFrom_latched cfg env ⟨true⟩ rfl es]
          simpa [pubCount] using resolve_pubCount cfg env mid

theorem publish_mem_runFrom (cfg : Config) (env : TfEnv) :
    ∀ (es : List Event) (s : State) (p : FramePublication),
      Output.publish_frame p ∈ (runFrom cfg env s es).2 →
      ∃ mid : ℤ, Output.publish_frame p ∈ resolve cfg env mid := by
  intro es
  induction es with
  | nil => intro s p h; simp [runFrom] at h
  | cons e es ih =>
    intro s p h
    rw [runFrom_cons, List.mem_append] at h
    cases h with
    | inl h1 =>
      cases e with
      | arrival d =>
        cases d with
        | none => simp [step, goal_reached_callback] at h1
        | some data =>
          simp only [step, goal_reached_callback] at h1
          split at h1 <;> simp at h1
      | markers ids =>
        cases ids with
        | nil => simp [step, aruco_markers_callback] at h1
        | cons mid rest =>
          simp only [step, aruco_markers_callback] at h1
          split at h1
          · simp at h1
          · exact ⟨mid, h1⟩
    | inr h2 => exact ih (step cfg env s e).1 p h2

/-- Claim C6: over any whole run, the derived goal frame is published at most
once, and every publication is a static child of the configured reference
frame with translation `(offsetX, offsetY, 0)` for a successfully looked-up
offset pair and identity rotation. -/
theorem C6_frame_published_at_most_once (cfg : Config) (env : TfEnv)
    (es : List Event) :
    pubCount (run cfg env es).2 ≤ 1 ∧
    ∀ p : FramePublication, Output.publish_frame p ∈ (run cfg env es).2 →
      p.parent = cfg.frame_id ∧ p.child = "final_destination" ∧
      p.tz = 0 ∧ p.rc = 1 ∧ p.rs = 0 ∧
      ∃ mid : ℤ,
        get_final_destination_from_parameters cfg mid = .ok (p.tx, p.ty) := by
  have hsplit :
      (run cfg env es).2 =
        (construct cfg).2 ++ (runFrom cfg env (construct cfg).1 es).2 := rfl
  constructor
  · rw [hsplit, pubCount_append]
    have h0 : pubCount (construct cfg).2 = 0 := rfl
    rw [h0]
    simpa using runFrom_pubCount_le_one cfg env es (construct cfg).1
  · intro p hp
    rw [hsplit, List.mem_append] at hp
    have hp2 :
        Output.publish_frame p ∈ (runFrom cfg env (construct cfg).1 es).2 := by
      cases hp with
      | inl h => simp [construct] at h
      | inr h => exact h
    obtain ⟨mid, hmem⟩ := publish_mem_runFrom cfg env es (construct cfg).1 p hp2
    obtain ⟨hok, hbp⟩ := publish_mem_resolve cfg env mid p hmem
    refine ⟨?_, ?_, ?_, ?_, ?_, mid, hok⟩ <;> rw [hbp] <;> rfl

/-- The concrete frame publication of the witnesses: child of `"frame"` at
offset `(1/2, -1)`. -/
def pubEx : FramePublication :=
  broadcast_frame_final_destination "frame" (1/2) (-1)

/-- Witness for Claim C6: in a concrete run whose single event observes
marker 1, the published frame is a static child of the configured reference
frame with the looked-up offsets, zero z and identity rotation. -/
theorem C6_witness :
    pubEx.parent = cfgEx.frame_id ∧ pubEx.child = "final_destination" ∧
    pubEx.tz = 0 ∧ pubEx.rc = 1 ∧ pubEx.rs = 0 ∧
    ∃ mid : ℤ,
      get_final_destination_from_parameters cfgEx mid =
        .ok (pubEx.tx, pubEx.ty) :=
  (C6_frame_published_at_most_once cfgEx envNone [Event.markers [1]]).2 pubEx
    (by
      rw [show (run cfgEx envNone [Event.markers [1]]).2 =
          [Output.set_goal 2 3, Output.publish_frame pubEx,
           Output.error_report TRError.TransformUnavailable] from rfl]
      simp)
